import Mathlib

/-!
Verification development for the GPTStudio VS Code extension.

The TypeScript source is shallowly embedded: JavaScript strings become
lists of characters (`JStr`), JavaScript truthiness of a string is
emptiness, `undefined`-able values become `Option`, and functions that can
reject become `Except`. Effects that the claims observe (UI messages,
log lines, chunk callbacks) are returned explicitly as data.
-/

set_option maxRecDepth 100000

namespace GptStudio

/-- JavaScript strings, modelled as lists of characters. -/
abbrev JStr := List Char

/-- Embed a Lean string literal as a `JStr`. -/
def str (s : String) : JStr := s.data

/-- The whitespace class used by JavaScript `String.prototype.trim`
(space, tab, line feed, carriage return, vertical tab, form feed). -/
def jsIsSpace (c : Char) : Bool :=
  c = ' ' || c = '\t' || c = '\n' || c = '\r' || c = '\x0b' || c = '\x0c'

/-- JavaScript `String.prototype.trim`: drop whitespace from both ends. -/
def jsTrim (s : JStr) : JStr :=
  ((s.dropWhile jsIsSpace).reverse.dropWhile jsIsSpace).reverse

/-- JavaScript `String.prototype.split` with a single-character separator
(no limit argument): splitting the empty string yields one empty part, and
a trailing separator yields a trailing empty part. -/
def jsSplit (sep : Char) : JStr → List JStr
  | [] => [[]]
  | c :: rest =>
    if c = sep then [] :: jsSplit sep rest
    else
      match jsSplit sep rest with
      | [] => [[c]]
      | p :: ps => (c :: p) :: ps

/-- JavaScript `Array.prototype.join` with a string separator. -/
def jsJoin (sep : JStr) (parts : List JStr) : JStr :=
  List.intercalate sep parts

/-- JavaScript `a || b` for strings: the empty string is falsy. -/
def jsOrElse (a b : JStr) : JStr :=
  if a.isEmpty then b else a

/-- The three UI modes of the panel. -/
inductive Mode
  | chat
  | agent
  | fullAgent
deriving DecidableEq, Repr

/-- JavaScript string interpolation of a mode value. -/
def Mode.render : Mode → JStr
  | Mode.chat => str "chat"
  | Mode.agent => str "agent"
  | Mode.fullAgent => str "full-agent"

/-- `ContextFile` from `context.ts`. -/
structure ContextFile where
  path : JStr
  content : Option JStr
deriving DecidableEq, Repr

/-- `ContextBundle` from `context.ts`. -/
structure ContextBundle where
  workspaceName : JStr
  files : List JStr
  openFiles : List ContextFile
deriving DecidableEq, Repr

/-- `ChatRequest` from `modelClient.ts`. -/
structure ChatRequest where
  model : JStr
  mode : Mode
  customGpt : Option JStr
  prompt : JStr
  context : ContextBundle
deriving DecidableEq, Repr

/-- The multi-line summary built by `MockModelClient.chat`
(`response` in the source): ten lines joined with a line feed. -/
def mockResponse (r : ChatRequest) : JStr :=
  jsJoin (str "\n")
    [ str "Model: " ++ r.model
    , str "Mode: " ++ r.mode.render
    , str "Custom GPT: " ++ r.customGpt.getD (str "none")
    , str "Workspace: " ++ r.context.workspaceName
    , str "Files: " ++ jsOrElse (jsJoin (str ", ") (r.context.files.take 5)) (str "None")
    , str "Open files: " ++
        jsOrElse (jsJoin (str ", ") (r.context.openFiles.map ContextFile.path)) (str "None")
    , []
    , str "Echo: " ++ r.prompt
    , []
    , str "Mock client is active (set OPENAI_API_KEY to use a real model)." ]

/-- The chunks `MockModelClient.chat` delivers to `onChunk`, in order:
the response is split on line feeds and each part is sent with a
trailing line feed appended. -/
def mockChunks (r : ChatRequest) : List JStr :=
  (jsSplit '\n' (mockResponse r)).map (fun part => part ++ ['\n'])

/-- `MockModelClient.chat`: the final result paired with the delivered
chunk sequence. -/
def mockChat (r : ChatRequest) : JStr × List JStr :=
  (mockResponse r, mockChunks r)

/-- A concrete chat request used to exercise the simulated backend. -/
def reqA : ChatRequest :=
  { model := str "m"
  , mode := Mode.chat
  , customGpt := none
  , prompt := str "p"
  , context := { workspaceName := str "ws", files := [], openFiles := [] } }

/-- `CustomGpt` from `customGptService.ts`. -/
structure CustomGpt where
  id : JStr
  label : JStr
deriving DecidableEq, Repr

/-- `GptApiItem` from `customGptService.ts`: one entry of the `data`
array of the remote persona endpoint. The `id` field is a plain string
(falsy when empty); `name` and `display_name` may be absent. -/
structure GptApiItem where
  id : JStr
  name : Option JStr
  display_name : Option JStr
deriving DecidableEq, Repr

/-- Outcome of the `fetch` performed by `CustomGptService.fetchFromApi`:
the network layer may throw, the response may carry a non-success HTTP
status, or a JSON body whose `data` array may be absent. -/
inductive GptFetchOutcome
  | netError (message : JStr)
  | httpError (status : Nat)
  | success (data : Option (List GptApiItem))
deriving DecidableEq, Repr

/-- The mapping `fetchFromApi` applies to the `data` array: each item
becomes a persona whose label falls back from `display_name` to `name`
to `id`, and entries with a falsy (empty) id are dropped. -/
def apiPersonas (data : List GptApiItem) : List CustomGpt :=
  (data.map (fun item =>
    ({ id := item.id
     , label := item.display_name.getD (item.name.getD item.id) } : CustomGpt))).filter
    (fun g => !g.id.isEmpty)

/-- `CustomGptService.fetchFromApi`, as a function of the fetch outcome:
a thrown network error propagates, a non-success status throws an error
naming the numeric status, a missing `data` field yields the empty list,
and otherwise the items map through `apiPersonas`. -/
def fetchFromApi (o : GptFetchOutcome) : Except JStr (List CustomGpt) :=
  match o with
  | GptFetchOutcome.netError m => Except.error m
  | GptFetchOutcome.httpError s => Except.error (str "HTTP " ++ str (toString s))
  | GptFetchOutcome.success none => Except.ok []
  | GptFetchOutcome.success (some data) => Except.ok (apiPersonas data)

/-- The trimmed non-empty tokens of a comma-separated override string
(`raw.split(',').map(trim).filter(Boolean)` in the source). -/
def envTokens (raw : JStr) : List JStr :=
  ((jsSplit ',' raw).map jsTrim).filter (fun t => !t.isEmpty)

/-- `CustomGptService.loadFromEnv`: an absent or empty override string
yields no personas; otherwise each trimmed non-empty token becomes a
persona with id and label both equal to the token. -/
def loadFromEnv (envList : Option JStr) : List CustomGpt :=
  match envList with
  | none => []
  | some raw =>
      if raw.isEmpty then []
      else (envTokens raw).map (fun t => ({ id := t, label := t } : CustomGpt))

/-- `CustomGptService.shouldCallApi`: an override configured as the empty
string disables the remote fetch, a non-empty override enables it, and no
override defaults to off. -/
def shouldCallApi (endpointOverride : Option JStr) : Bool :=
  match endpointOverride with
  | some o => !o.isEmpty
  | none => false

/-- JavaScript truthiness of an optional string value: `undefined` and
the empty string are falsy. -/
def truthy (o : Option JStr) : Bool :=
  match o with
  | none => false
  | some s => !s.isEmpty

/-- The configuration fields of `CustomGptService` read by `load`. -/
structure ServiceConfig where
  apiKey : Option JStr
  envList : Option JStr
  endpointOverride : Option JStr
deriving DecidableEq, Repr

/-- The built-in default demo personas returned by `CustomGptService.load`
when both the remote fetch and the environment override yield nothing. -/
def defaultGpts : List CustomGpt :=
  [ { id := str "gertrude", label := str "Gertrude (review hawk)" }
  , { id := str "ida", label := str "Ida (integrator)" } ]

/-- The remote stage of `CustomGptService.load`: when a key is present
and the override enables the call, a successful non-empty fetch result
wins; an empty result, or an error caught by the surrounding `try`,
yields nothing. -/
def apiStage (cfg : ServiceConfig) (o : GptFetchOutcome) : Option (List CustomGpt) :=
  if truthy cfg.apiKey && shouldCallApi cfg.endpointOverride then
    match fetchFromApi o with
    | Except.ok fromApi => if fromApi.isEmpty then none else some fromApi
    | Except.error _ => none
  else none

/-- `CustomGptService.load`: the remote API result first (its failures
caught and logged), then the environment override list, then the built-in
defaults. A total function — every underlying failure is absorbed. -/
def load (cfg : ServiceConfig) (o : GptFetchOutcome) : List CustomGpt :=
  match apiStage cfg o with
  | some l => l
  | none =>
      let fallback := loadFromEnv cfg.envList
      if fallback.isEmpty then defaultGpts else fallback

/-- The non-remote tail of the resolution chain: the override list when
non-empty, otherwise the built-in defaults. -/
def envOrDefaults (envList : Option JStr) : List CustomGpt :=
  let fallback := loadFromEnv envList
  if fallback.isEmpty then defaultGpts else fallback

/-- A visible text editor as the snapshot builder sees it: the scheme of
its document URI, its workspace-relative path, and its document text. -/
structure Editor where
  scheme : JStr
  path : JStr
  text : JStr
deriving DecidableEq, Repr

/-- The environment `buildContextBundle` reads: the optional workspace
name, the result of workspace file enumeration (which may fail), and the
list of currently visible text editors. -/
structure BuildEnv where
  workspaceName : Option JStr
  findFilesResult : Except JStr (List JStr)
  visibleTextEditors : List Editor
deriving Repr

/-- `MAX_FILES` from `context.ts`. -/
def MAX_FILES : Nat := 20

/-- `MAX_OPEN_FILE_BYTES` from `context.ts`. -/
def MAX_OPEN_FILE_BYTES : Nat := 10000

/-- Modelled from the spec of the editor API used by `context.ts`:
`findFiles` yields at most `maxResults` of the matching
workspace-relative paths supplied by the environment, or propagates the
enumeration failure. -/
def findFiles (res : Except JStr (List JStr)) (maxResults : Nat) : Except JStr (List JStr) :=
  res.map (fun l => l.take maxResults)

/-- `buildContextBundle` from `context.ts`: the workspace name defaults
to `workspace`; the enumerated paths (already relative) become `files`;
the visible editors backed by `file`-scheme documents, capped at five,
become `openFiles` with their text truncated to `MAX_OPEN_FILE_BYTES`.
The enumeration is awaited with no surrounding `try`, so its failure
propagates. -/
def buildContextBundle (env : BuildEnv) : Except JStr ContextBundle :=
  let workspaceName := env.workspaceName.getD (str "workspace")
  match findFiles env.findFilesResult MAX_FILES with
  | Except.error e => Except.error e
  | Except.ok files =>
      let openFiles :=
        ((env.visibleTextEditors.filter (fun e => e.scheme == str "file")).take 5).map
          (fun e =>
            ({ path := e.path, content := some (e.text.take MAX_OPEN_FILE_BYTES) } : ContextFile))
      Except.ok { workspaceName := workspaceName, files := files, openFiles := openFiles }

/-- The session state owned by `GptStudioViewProvider`: current model,
persona list, persona selection, mode, and the context bundle of the last
chat turn. -/
structure SessionState where
  selectedModel : JStr
  customGpts : List CustomGpt
  selectedCustomGpt : Option JStr
  mode : Mode
  lastContext : Option ContextBundle
deriving DecidableEq, Repr

/-- The events that touch session state: the inbound webview messages
handled by `handleMessage`, plus the two completions of the background
persona reload (`refreshCustomGpts` resolving, or its `catch` firing). A
chat submission stores the freshly built context bundle in
`lastContext`. -/
inductive SessionEvent
  | ready
  | modelChanged (model : JStr)
  | customGptChanged (id : JStr)
  | modeChanged (m : Mode)
  | chatSubmitted (ctx : ContextBundle)
  | reloadDone (list : List CustomGpt)
  | reloadFailed
deriving Repr

/-- The state transition of `GptStudioViewProvider.handleMessage` and
`refreshCustomGpts`: `customGptChanged` stores the incoming id verbatim
(no membership check); `reloadDone` replaces the list and resets the
selection to the first entry, or clears it when the new list is empty;
the reload `catch` clears both. -/
def sessionStep (s : SessionState) : SessionEvent → SessionState
  | SessionEvent.ready => s
  | SessionEvent.modelChanged m => { s with selectedModel := m }
  | SessionEvent.customGptChanged id => { s with selectedCustomGpt := some id }
  | SessionEvent.modeChanged m => { s with mode := m }
  | SessionEvent.chatSubmitted ctx => { s with lastContext := some ctx }
  | SessionEvent.reloadDone list =>
      { s with customGpts := list, selectedCustomGpt := list.head?.map CustomGpt.id }
  | SessionEvent.reloadFailed => { s with customGpts := [], selectedCustomGpt := none }

/-- The selection invariant stated by the spec: whenever
`selectedCustomGpt` is set it names an entry of the current `customGpts`
list. -/
def selectionValid (s : SessionState) : Bool :=
  match s.selectedCustomGpt with
  | none => true
  | some id => s.customGpts.any (fun g => g.id == id)

/-- Guard under which events keep the selection invariant: a
`customGptChanged` event must name an id of the current list (as events
originating from the panel's own dropdown do); other events are
unconstrained. -/
def eventIdInList (s : SessionState) : SessionEvent → Bool
  | SessionEvent.customGptChanged id => s.customGpts.any (fun g => g.id == id)
  | _ => true

/-- A thrown JavaScript value: an `Error` carrying a message, or any
other value. -/
inductive JsError
  | errorObject (message : JStr)
  | otherValue
deriving DecidableEq, Repr

/-- The human-readable message the `catch` of `handleChat` extracts:
`err.message` for `Error` instances, `Unknown error` otherwise. -/
def errMessage : JsError → JStr
  | JsError.errorObject m => m
  | JsError.otherValue => str "Unknown error"

/-- Outcome of the awaited `modelClient.chat` call: resolution with a
final text, or rejection with a thrown value; either way the chunks
already delivered through `onChunk` are recorded. -/
inductive ChatOutcome
  | resolved (chunks : List JStr) (finalText : JStr)
  | rejected (chunks : List JStr) (err : JsError)
deriving Repr

/-- The messages `handleChat` posts to the webview. -/
inductive UiMsg
  | contextMsg (files : List JStr) (openPaths : List JStr)
  | responseStart
  | responseChunk (text : JStr)
  | responseDone (text : JStr)
  | errorEvent (message : JStr)
deriving DecidableEq, Repr

/-- What one run of `handleChat` posts to the webview and writes to the
output channel. -/
structure ChatEffects where
  ui : List UiMsg
  log : List JStr
deriving DecidableEq, Repr

/-- The `[Chat]` log line written at the start of `handleChat`. -/
def chatLogHeader (s : SessionState) : JStr :=
  str "[Chat] model=" ++ s.selectedModel ++ str " mode=" ++ s.mode.render ++
    str " customGpt=" ++ s.selectedCustomGpt.getD (str "none")

/-- `GptStudioViewProvider.handleChat`: builds a fresh context bundle
(outside the `try`, so an enumeration failure propagates), posts the
context preview and `responseStart`, relays every chunk as a
`responseChunk` event, and finishes with `responseDone` on resolution
or — inside the `catch` — a terminal `error` event plus a `[Chat error]`
log line on rejection. -/
def handleChat (s : SessionState) (env : BuildEnv) (o : ChatOutcome) :
    Except JStr ChatEffects :=
  match buildContextBundle env with
  | Except.error e => Except.error e
  | Except.ok context =>
      let pre : List UiMsg :=
        [ UiMsg.contextMsg context.files (context.openFiles.map ContextFile.path)
        , UiMsg.responseStart ]
      match o with
      | ChatOutcome.resolved chunks finalText =>
          Except.ok
            { ui := pre ++ chunks.map UiMsg.responseChunk ++ [UiMsg.responseDone finalText]
            , log := [chatLogHeader s] }
      | ChatOutcome.rejected chunks e =>
          Except.ok
            { ui := pre ++ chunks.map UiMsg.responseChunk ++ [UiMsg.errorEvent (errMessage e)]
            , log := [chatLogHeader s, str "[Chat error] " ++ errMessage e] }

/-- One message of the chat-completion request body. -/
structure ChatMessage where
  role : JStr
  content : JStr
deriving DecidableEq, Repr

/-- The JSON body `OpenAiModelClient.chat` posts to the completion
endpoint. The constant numeric literal `temperature: 0.2` is part of the
body in the source but carries no claim-relevant behaviour and is not
modelled as a field. -/
structure OpenAiBody where
  model : JStr
  messages : List ChatMessage
  stream : Bool
deriving DecidableEq, Repr

/-- The system prompt built by `OpenAiModelClient.chat`: four fixed
lines plus an optional persona line, joined by line feeds after
`filter(Boolean)` drops the absent (or empty-persona) entry. -/
def systemPrompt (r : ChatRequest) : JStr :=
  jsJoin (str "\n")
    (([ some (str "You are GPTStudio, a coding copilot working inside VS Code.")
      , some (str "Be concise. Return plain text.")
      , some (str "Use the provided context (files, open buffers) to ground answers.")
      , some (str "Mode: " ++ r.mode.render)
      , match r.customGpt with
        | some p => if p.isEmpty then none else some (str "Persona: " ++ p)
        | none => none ]).filterMap id)

/-- `formatContext` from `modelClient.ts`. -/
def formatContext (c : ContextBundle) : JStr :=
  let openFiles := jsJoin (str "\n")
    (c.openFiles.map (fun f =>
      str "- " ++ f.path ++
        (match f.content with
         | some t => if t.isEmpty then [] else str "\n---\n" ++ t ++ str "\n---"
         | none => [])))
  jsJoin (str "\n")
    [ str "Workspace: " ++ c.workspaceName
    , str "Files (sample): " ++ jsOrElse (jsJoin (str ", ") (c.files.take 10)) (str "None")
    , str "Open files:\n" ++ jsOrElse openFiles (str "None") ]

/-- The request body built by `OpenAiModelClient.chat`: the literal model
id `custom-endpoint` is rewritten to the fixed fallback `gpt-4.1`; every
other model id passes through verbatim. -/
def openAiBody (r : ChatRequest) : OpenAiBody :=
  { model := if r.model = str "custom-endpoint" then str "gpt-4.1" else r.model
  , messages :=
      [ { role := str "system", content := systemPrompt r }
      , { role := str "user"
        , content := formatContext r.context ++ str "\n\nUser: " ++ r.prompt } ]
  , stream := false }

/-- Outcome of the completion request issued by `OpenAiModelClient.chat`:
the network layer may throw, the response may carry a non-success status
together with its raw body text, or a parsed body whose
`choices[0].message.content` field may be absent. -/
inductive HttpOutcome
  | netError (message : JStr)
  | httpError (status : Nat) (bodyText : JStr)
  | success (content : Option JStr)
deriving DecidableEq, Repr

/-- `OpenAiModelClient.chat` after the request is sent, as a function of
the response: a network failure propagates uncaught; a non-success
status throws an error embedding the numeric status and the raw body; a
missing content field, or content whose trim is empty, throws the
`no content` error; otherwise the trimmed content is both delivered as
the single chunk and returned as the final text. -/
def openAiChatResult (res : HttpOutcome) : Except JStr (JStr × List JStr) :=
  match res with
  | HttpOutcome.netError m => Except.error m
  | HttpOutcome.httpError status bodyText =>
      Except.error (str "Model request failed (" ++ str (toString status) ++ str "): " ++ bodyText)
  | HttpOutcome.success contentOpt =>
      match contentOpt with
      | none => Except.error (str "Model returned no content.")
      | some c =>
          let t := jsTrim c
          if t.isEmpty then Except.error (str "Model returned no content.")
          else Except.ok (t, [t])

/-- A concrete configuration whose override string is a lone comma: it
has zero non-empty trimmed tokens. -/
def cfgEmptyTokens : ServiceConfig :=
  { apiKey := none, envList := some (str ","), endpointOverride := none }

/-- A concrete configuration whose override string repeats a token. -/
def cfgDup : ServiceConfig :=
  { apiKey := none, envList := some (str "a,a"), endpointOverride := none }

/-- A concrete configuration with three override tokens, one repeated. -/
def cfgTok : ServiceConfig :=
  { apiKey := none, envList := some (str " a , b ,a"), endpointOverride := none }

/-- A concrete configuration with a key and an endpoint override, so the
remote fetch is actually attempted. -/
def cfgApi : ServiceConfig :=
  { apiKey := some (str "k"), envList := none, endpointOverride := some (str "https://x/gpts") }

/-- A concrete build environment whose file enumeration fails. -/
def envEnumFail : BuildEnv :=
  { workspaceName := some (str "ws")
  , findFilesResult := Except.error (str "enumeration failed")
  , visibleTextEditors := [] }

/-- A concrete build environment whose file enumeration succeeds. -/
def envOk : BuildEnv :=
  { workspaceName := some (str "ws")
  , findFilesResult := Except.ok [str "a.ts", str "b.ts"]
  , visibleTextEditors := [{ scheme := str "file", path := str "a.ts", text := str "let x = 1" }] }

/-- A concrete session state holding the two default personas with a
valid selection. -/
def sessA : SessionState :=
  { selectedModel := str "gpt-4.1-mini"
  , customGpts := defaultGpts
  , selectedCustomGpt := some (str "gertrude")
  , mode := Mode.chat
  , lastContext := none }

/-- A concrete chat request selecting the custom endpoint model. -/
def reqCE : ChatRequest :=
  { model := str "custom-endpoint"
  , mode := Mode.agent
  , customGpt := some (str "ida")
  , prompt := str "q"
  , context := { workspaceName := str "ws", files := [], openFiles := [] } }

/-!
Theorems. General helper lemmas first, then one theorem per claim (with
its counterexample and witness where required).
-/

/-- Appending the separator to every part of a split and concatenating
recovers the original string followed by one extra separator. -/
theorem jsSplit_append_join (sep : Char) (s : JStr) :
    ((jsSplit sep s).map (fun p => p ++ [sep])).flatten = s ++ [sep] := by
  induction s with
  | nil => simp [jsSplit]
  | cons c rest ih =>
    by_cases hc : c = sep
    · subst hc
      simp [jsSplit, ih]
    · cases h : jsSplit sep rest with
      | nil =>
        rw [h] at ih
        simp at ih
      | cons p ps =>
        rw [h] at ih
        simp only [jsSplit, if_neg hc, h, List.map_cons, List.flatten_cons,
          List.cons_append, List.append_assoc] at ih ⊢
        rw [ih]

/-- The last element of a list extended by a singleton. -/
theorem getLast?_append_singleton {α : Type} (l : List α) (a : α) :
    (l ++ [a]).getLast? = some a := by
  induction l with
  | nil => rfl
  | cons b t ih =>
    rw [List.cons_append]
    cases ht : t ++ [a] with
    | nil => exact absurd ht (by simp)
    | cons c l2 =>
      rw [List.getLast?_cons_cons, ← ht]
      exact ih

/-- The head of `dropWhile p l`, when it exists, does not satisfy `p`. -/
theorem head?_dropWhile_not {α : Type} (p : α → Bool) (l : List α) (h : α)
    (hh : (l.dropWhile p).head? = some h) : p h = false := by
  induction l with
  | nil => simp [List.dropWhile] at hh
  | cons a t ih =>
    rw [List.dropWhile_cons] at hh
    by_cases ha : p a
    · rw [if_pos ha] at hh
      exact ih hh
    · rw [if_neg ha] at hh
      simp only [List.head?_cons, Option.some.injEq] at hh
      rw [← hh]
      exact Bool.eq_false_iff.mpr ha

/-- Dropping a prefix never changes the last element when one remains. -/
theorem getLast?_dropWhile_eq {α : Type} (p : α → Bool) (l : List α) (x : α)
    (hx : (l.dropWhile p).getLast? = some x) : l.getLast? = some x := by
  induction l with
  | nil => simp [List.dropWhile] at hx
  | cons a t ih =>
    rw [List.dropWhile_cons] at hx
    by_cases ha : p a
    · rw [if_pos ha] at hx
      have ht := ih hx
      cases t with
      | nil => simp [List.dropWhile] at hx
      | cons b t2 =>
        rw [List.getLast?_cons_cons]
        exact ht
    · rw [if_neg ha] at hx
      exact hx

/-- `jsTrim` output never starts with whitespace. -/
theorem jsTrim_head_not_space (s : JStr) (h : Char)
    (hh : (jsTrim s).head? = some h) : jsIsSpace h = false := by
  unfold jsTrim at hh
  rw [List.head?_reverse] at hh
  have h2 := getLast?_dropWhile_eq _ _ _ hh
  rw [List.getLast?_reverse] at h2
  exact head?_dropWhile_not _ _ _ h2

/-- `jsTrim` output never ends with whitespace. -/
theorem jsTrim_getLast_not_space (s : JStr) (h : Char)
    (hh : (jsTrim s).getLast? = some h) : jsIsSpace h = false := by
  unfold jsTrim at hh
  rw [List.getLast?_reverse] at hh
  exact head?_dropWhile_not _ _ _ hh

/-- Trimming an all-whitespace string yields the empty string. -/
theorem jsTrim_all_space (s : JStr) (hs : ∀ x ∈ s, jsIsSpace x = true) :
    jsTrim s = [] := by
  unfold jsTrim
  have h1 : s.dropWhile jsIsSpace = [] := List.dropWhile_eq_nil_iff.mpr hs
  rw [h1]
  rfl

/-- C1 counterexample: for the concrete request `reqA`, the concatenation
of the chunks the simulated backend delivers is NOT equal to the final
result of `chat()` — it carries one extra trailing line feed. -/
theorem mock_concat_ne_final :
    ¬ ((mockChat reqA).2.flatten = (mockChat reqA).1) := by decide

/-- C1 (amended): for the simulated (mock) backend, the concatenation of
all chunks delivered to `onChunk`, in delivery order, equals the final
result of `chat()` followed by exactly one trailing line feed. -/
theorem mock_concat_eq_final_newline (r : ChatRequest) :
    (mockChat r).2.flatten = (mockChat r).1 ++ ['\n'] :=
  jsSplit_append_join '\n' (mockResponse r)

/-- C7: `load` is a total function into persona lists — every underlying
failure is absorbed — and on every failing remote fetch outcome (thrown
network error or non-success HTTP status) it falls through to the
override list or, when that is empty, to the two built-in defaults in
fixed order. -/
theorem load_absorbs_fetch_failure (cfg : ServiceConfig) (msg : JStr) (status : Nat) :
    load cfg (GptFetchOutcome.netError msg) = envOrDefaults cfg.envList ∧
    load cfg (GptFetchOutcome.httpError status) = envOrDefaults cfg.envList ∧
    (loadFromEnv cfg.envList = [] →
      load cfg (GptFetchOutcome.netError msg) = defaultGpts) ∧
    defaultGpts =
      [ { id := str "gertrude", label := str "Gertrude (review hawk)" }
      , { id := str "ida", label := str "Ida (integrator)" } ] := by
  have hnet : apiStage cfg (GptFetchOutcome.netError msg) = none := by
    simp [apiStage, fetchFromApi]
  have hhttp : apiStage cfg (GptFetchOutcome.httpError status) = none := by
    simp [apiStage, fetchFromApi]
  refine ⟨?_, ?_, ?_, rfl⟩
  · simp [load, hnet, envOrDefaults]
  · simp [load, hhttp, envOrDefaults]
  · intro hempty
    simp [load, hnet, hempty]

/-- Witness for C7 at a configuration that genuinely attempts the remote
fetch and has no override list: a thrown fetch is absorbed and the two
built-in defaults are returned. -/
theorem load_absorbs_fetch_failure_witness :
    load cfgApi (GptFetchOutcome.netError (str "boom")) = defaultGpts :=
  (load_absorbs_fetch_failure cfgApi (str "boom") 0).2.2.1 rfl

/-- C6 counterexample: the override string of `cfgEmptyTokens` has zero
non-empty trimmed tokens, yet `load` does not return zero personas — it
returns the two built-in defaults. -/
theorem load_zero_tokens_not_env :
    envTokens (str ",") = [] ∧
    load cfgEmptyTokens (GptFetchOutcome.success none) ≠
      (envTokens (str ",")).map (fun t => ({ id := t, label := t } : CustomGpt)) ∧
    load cfgEmptyTokens (GptFetchOutcome.success none) = defaultGpts := by
  decide

/-- C6 (amended): whenever the remote stage yields no result and the
override string has at least one non-empty trimmed token, `load` returns
exactly the token list mapped to personas with id = label = token, in
input order, duplicates preserved; with zero tokens the built-in
defaults are returned instead. -/
theorem load_env_token_personas (cfg : ServiceConfig) (raw : JStr) (o : GptFetchOutcome)
    (hapi : apiStage cfg o = none) (henv : cfg.envList = some raw)
    (hne : envTokens raw ≠ []) :
    load cfg o = (envTokens raw).map (fun t => ({ id := t, label := t } : CustomGpt)) ∧
    (load cfg o).length = (envTokens raw).length := by
  have hraw : ¬ (raw.isEmpty = true) := by
    intro hr
    apply hne
    have hr2 : raw = [] := by simpa using hr
    rw [hr2]
    rfl
  have hmap : ¬ (((envTokens raw).map
      (fun t => ({ id := t, label := t } : CustomGpt))).isEmpty = true) := by
    intro hm
    apply hne
    have := List.isEmpty_iff.mp hm
    exact List.map_eq_nil_iff.mp this
  have hl : load cfg o =
      (envTokens raw).map (fun t => ({ id := t, label := t } : CustomGpt)) := by
    simp [load, hapi, loadFromEnv, henv, hraw, hmap]
  exact ⟨hl, by rw [hl, List.length_map]⟩

/-- Witness for C6 at the concrete configuration `cfgTok`: three tokens,
one repeated, all preserved in order. -/
theorem load_env_token_personas_witness :
    load cfgTok (GptFetchOutcome.success none) =
      (envTokens (str " a , b ,a")).map (fun t => ({ id := t, label := t } : CustomGpt)) ∧
    (load cfgTok (GptFetchOutcome.success none)).length = (envTokens (str " a , b ,a")).length :=
  load_env_token_personas cfgTok (str " a , b ,a") (GptFetchOutcome.success none)
    (by decide) rfl (by decide)

/-- C4 counterexample: the duplicated override token of `cfgDup` yields
two personas with the same id, so a loaded set is not unique by id. -/
theorem load_duplicate_ids :
    load cfgDup (GptFetchOutcome.success none) =
      [ { id := str "a", label := str "a" }, { id := str "a", label := str "a" } ] ∧
    ¬ ((load cfgDup (GptFetchOutcome.success none)).map CustomGpt.id).Nodup := by
  decide

/-- The ids of the personas produced by `apiPersonas` are a sublist of
the ids of the raw items, so distinct item ids give distinct personas. -/
theorem apiPersonas_ids_nodup (data : List GptApiItem)
    (h : (data.map GptApiItem.id).Nodup) :
    ((apiPersonas data).map CustomGpt.id).Nodup := by
  have hsub : ((apiPersonas data).map CustomGpt.id).Sublist
      ((data.map (fun item =>
        ({ id := item.id
         , label := item.display_name.getD (item.name.getD item.id) } : CustomGpt))).map
        CustomGpt.id) := (List.filter_sublist _).map _
  have heq : ((data.map (fun item =>
      ({ id := item.id
       , label := item.display_name.getD (item.name.getD item.id) } : CustomGpt))).map
      CustomGpt.id) = data.map GptApiItem.id := by
    rw [List.map_map]
    rfl
  rw [heq] at hsub
  exact h.sublist hsub

/-- The env-or-defaults fallback keeps ids distinct when the override
tokens are distinct. -/
theorem envFallback_ids_nodup (envList : Option JStr)
    (henv : ∀ raw, envList = some raw → (envTokens raw).Nodup) :
    ((if (loadFromEnv envList).isEmpty then defaultGpts else loadFromEnv envList).map
      CustomGpt.id).Nodup := by
  cases envList with
  | none => decide
  | some raw =>
    simp only [loadFromEnv]
    by_cases hr : raw.isEmpty = true
    · rw [if_pos hr]
      decide
    · rw [if_neg hr]
      by_cases ht : envTokens raw = []
      · rw [ht]
        decide
      · have hmape : ¬ (((envTokens raw).map
            (fun t => ({ id := t, label := t } : CustomGpt))).isEmpty = true) := by
          intro hm
          exact ht (List.map_eq_nil_iff.mp (List.isEmpty_iff.mp hm))
        rw [if_neg hmape, List.map_map]
        have hcomp : (CustomGpt.id ∘ fun t => ({ id := t, label := t } : CustomGpt)) =
            fun t => t := rfl
        rw [hcomp, List.map_id']
        exact henv raw rfl

/-- C4 (amended): a persona list returned by `load` has pairwise-distinct
ids provided the override string's non-empty trimmed tokens are pairwise
distinct and the remote items carry pairwise-distinct ids; duplicate
override tokens (or duplicate remote ids) are preserved, not deduplicated. -/
theorem load_ids_nodup_of_distinct (cfg : ServiceConfig) (o : GptFetchOutcome)
    (hdata : ∀ data, o = GptFetchOutcome.success (some data) → (data.map GptApiItem.id).Nodup)
    (henv : ∀ raw, cfg.envList = some raw → (envTokens raw).Nodup) :
    ((load cfg o).map CustomGpt.id).Nodup := by
  unfold load
  cases hapi : apiStage cfg o with
  | none =>
    simpa using envFallback_ids_nodup cfg.envList henv
  | some l =>
    unfold apiStage at hapi
    by_cases hcond : (truthy cfg.apiKey && shouldCallApi cfg.endpointOverride) = true
    · rw [if_pos hcond] at hapi
      cases o with
      | netError m => simp [fetchFromApi] at hapi
      | httpError s => simp [fetchFromApi] at hapi
      | success copt =>
        cases copt with
        | none => simp [fetchFromApi] at hapi
        | some data =>
          simp only [fetchFromApi] at hapi
          split at hapi
          · exact absurd hapi (by simp)
          · simp only [Option.some.injEq] at hapi
            rw [← hapi]
            exact apiPersonas_ids_nodup data (hdata data rfl)
    · rw [if_neg hcond] at hapi
      exact absurd hapi (by simp)

/-- Witness for C4 at a configuration with no override and no key: the
returned defaults have distinct ids. -/
theorem load_ids_nodup_of_distinct_witness :
    ((load { apiKey := none, envList := none, endpointOverride := none }
        (GptFetchOutcome.success none)).map CustomGpt.id).Nodup :=
  load_ids_nodup_of_distinct { apiKey := none, envList := none, endpointOverride := none }
    (GptFetchOutcome.success none)
    (fun data h => by simp at h)
    (fun raw h => Option.noConfusion h)

/-- C2 counterexample: from a state satisfying the selection invariant,
processing a `customGptChanged` event whose id is not in the current
persona list breaks the invariant — the controller stores the incoming
id without any membership check. -/
theorem session_invariant_broken :
    selectionValid sessA = true ∧
    selectionValid (sessionStep sessA (SessionEvent.customGptChanged (str "bogus"))) = false := by
  decide

/-- C2 (amended): the selection invariant is preserved by every event the
controller processes provided each `customGptChanged` event names an id
of the current persona list; and on completion of a persona reload the
selection is reset to the id of the first entry of the new list, or
cleared when the new list is empty. -/
theorem session_invariant_preserved (s : SessionState) (e : SessionEvent)
    (hs : selectionValid s = true) (he : eventIdInList s e = true) :
    selectionValid (sessionStep s e) = true ∧
    (∀ l, (sessionStep s (SessionEvent.reloadDone l)).selectedCustomGpt =
      l.head?.map CustomGpt.id) := by
  constructor
  · cases e with
    | ready => exact hs
    | modelChanged m => simpa [sessionStep, selectionValid] using hs
    | customGptChanged id => simpa [sessionStep, selectionValid, eventIdInList] using he
    | modeChanged m => simpa [sessionStep, selectionValid] using hs
    | chatSubmitted ctx => simpa [sessionStep, selectionValid] using hs
    | reloadDone l =>
      cases l with
      | nil => simp [sessionStep, selectionValid]
      | cons g t => simp [sessionStep, selectionValid]
    | reloadFailed => simp [sessionStep, selectionValid]
  · intro l
    rfl

/-- Witness for C2 at the concrete state `sessA` and an in-list event. -/
theorem session_invariant_preserved_witness :
    selectionValid (sessionStep sessA (SessionEvent.customGptChanged (str "ida"))) = true :=
  (session_invariant_preserved sessA (SessionEvent.customGptChanged (str "ida"))
    (by decide) (by decide)).1

/-- C3 counterexample: in the concrete environment `envEnumFail`, whose
file enumeration fails, `build()` does not return a `ContextBundle` with
empty lists — the failure propagates to the caller. -/
theorem build_fails_on_enum_error :
    buildContextBundle envEnumFail = Except.error (str "enumeration failed") ∧
    ¬ ∃ b, buildContextBundle envEnumFail = Except.ok b := by
  refine ⟨rfl, ?_⟩
  rintro ⟨b, hb⟩
  rw [show buildContextBundle envEnumFail =
    Except.error (str "enumeration failed") from rfl] at hb
  exact Except.noConfusion hb

/-- C3 (amended): `build()` returns a `ContextBundle` whenever the
underlying file enumeration succeeds; when enumeration fails, the
failure propagates to the caller instead of producing empty lists. -/
theorem build_ok_of_enum_ok (env : BuildEnv) (paths : List JStr)
    (h : env.findFilesResult = Except.ok paths) :
    ∃ b, buildContextBundle env = Except.ok b :=
  ⟨{ workspaceName := env.workspaceName.getD (str "workspace")
   , files := paths.take MAX_FILES
   , openFiles :=
       ((env.visibleTextEditors.filter (fun e => e.scheme == str "file")).take 5).map
         (fun e =>
           ({ path := e.path, content := some (e.text.take MAX_OPEN_FILE_BYTES) } : ContextFile)) }
  , by simp [buildContextBundle, findFiles, h, Except.map]⟩

/-- Witness for C3 at the concrete succeeding environment `envOk`. -/
theorem build_ok_of_enum_ok_witness :
    ∃ b, buildContextBundle envOk = Except.ok b :=
  build_ok_of_enum_ok envOk [str "a.ts", str "b.ts"] rfl

/-- C9: every `ContextBundle` that `build()` returns holds at most
`MAX_FILES` (20) file paths and at most 5 open-file entries, and every
open-file content is at most `MAX_OPEN_FILE_BYTES` (10,000) characters. -/
theorem build_caps (env : BuildEnv) (b : ContextBundle)
    (h : buildContextBundle env = Except.ok b) :
    b.files.length ≤ MAX_FILES ∧ b.openFiles.length ≤ 5 ∧
    ∀ f ∈ b.openFiles, ∀ c, f.content = some c → c.length ≤ MAX_OPEN_FILE_BYTES := by
  cases hf : env.findFilesResult with
  | error e =>
    rw [show buildContextBundle env = Except.error e from by
      simp [buildContextBundle, findFiles, hf, Except.map]] at h
    exact Except.noConfusion h
  | ok paths =>
    rw [show buildContextBundle env = Except.ok
      { workspaceName := env.workspaceName.getD (str "workspace")
      , files := paths.take MAX_FILES
      , openFiles :=
          ((env.visibleTextEditors.filter (fun e => e.scheme == str "file")).take 5).map
            (fun e => ({ path := e.path
                       , content := some (e.text.take MAX_OPEN_FILE_BYTES) } : ContextFile)) } from by
      simp [buildContextBundle, findFiles, hf, Except.map]] at h
    cases h
    refine ⟨?_, ?_, ?_⟩
    · exact List.length_take_le MAX_FILES paths
    · rw [List.length_map]
      exact List.length_take_le 5 _
    · intro f hf2 c hc
      simp only [List.mem_map] at hf2
      obtain ⟨e, _, he⟩ := hf2
      rw [← he] at hc
      simp only [Option.some.injEq] at hc
      rw [← hc]
      exact List.length_take_le MAX_OPEN_FILE_BYTES e.text

/-- Witness for C9 at the concrete environment `envOk`. -/
theorem build_caps_witness :
    ∃ b, buildContextBundle envOk = Except.ok b ∧
      b.files.length ≤ MAX_FILES ∧ b.openFiles.length ≤ 5 ∧
      ∀ f ∈ b.openFiles, ∀ c, f.content = some c → c.length ≤ MAX_OPEN_FILE_BYTES := by
  refine ⟨_, rfl, build_caps envOk _ rfl⟩

/-- C5: when the backend chat call rejects — with an `Error` object or
any other thrown value — the chat turn that reached it (its context
build having succeeded) resolves normally rather than propagating the
failure, its last UI event is a terminal `error` event carrying the
human-readable message, and a `[Chat error]` line is logged. -/
theorem handleChat_error_contained (s : SessionState) (env : BuildEnv)
    (chunks : List JStr) (e : JsError) (ctx : ContextBundle)
    (hctx : buildContextBundle env = Except.ok ctx) :
    ∃ fx : ChatEffects,
      handleChat s env (ChatOutcome.rejected chunks e) = Except.ok fx ∧
      fx.ui.getLast? = some (UiMsg.errorEvent (errMessage e)) ∧
      (str "[Chat error] " ++ errMessage e) ∈ fx.log := by
  refine ⟨{ ui := [ UiMsg.contextMsg ctx.files (ctx.openFiles.map ContextFile.path)
                  , UiMsg.responseStart ] ++ chunks.map UiMsg.responseChunk ++
                  [UiMsg.errorEvent (errMessage e)]
          , log := [chatLogHeader s, str "[Chat error] " ++ errMessage e] }, ?_, ?_, ?_⟩
  · simp [handleChat, hctx]
  · exact getLast?_append_singleton _ _
  · simp

/-- Witness for C5 at the concrete environment `envOk` and a concrete
rejected backend call. -/
theorem handleChat_error_contained_witness :
    ∃ fx : ChatEffects,
      handleChat sessA envOk
          (ChatOutcome.rejected [str "partial"] (JsError.errorObject (str "boom"))) =
        Except.ok fx ∧
      fx.ui.getLast? =
        some (UiMsg.errorEvent (errMessage (JsError.errorObject (str "boom")))) ∧
      (str "[Chat error] " ++ errMessage (JsError.errorObject (str "boom"))) ∈ fx.log := by
  have h := handleChat_error_contained sessA envOk [str "partial"]
    (JsError.errorObject (str "boom")) _ rfl
  exact h

/-- C8: the request body the live backend sends carries the fixed
fallback model id `gpt-4.1` whenever the request's model is the literal
`custom-endpoint`, passes every other model id through verbatim, and
never carries the literal `custom-endpoint`. -/
theorem openAiBody_model_rewrite (r : ChatRequest) :
    (r.model = str "custom-endpoint" → (openAiBody r).model = str "gpt-4.1") ∧
    (r.model ≠ str "custom-endpoint" → (openAiBody r).model = r.model) ∧
    (openAiBody r).model ≠ str "custom-endpoint" := by
  by_cases h : r.model = str "custom-endpoint"
  · refine ⟨fun _ => ?_, fun hn => absurd h hn, ?_⟩
    · simp [openAiBody, h]
    · simp only [openAiBody, if_pos h]
      decide
  · refine ⟨fun hc => absurd hc h, fun _ => by simp [openAiBody, h], ?_⟩
    rw [show (openAiBody r).model = r.model from by simp [openAiBody, h]]
    exact h

/-- Witness for C8 at the concrete request `reqCE`, whose model field is
the literal `custom-endpoint`. -/
theorem openAiBody_model_rewrite_witness :
    (openAiBody reqCE).model = str "gpt-4.1" :=
  (openAiBody_model_rewrite reqCE).1 rfl

/-- C10: the live backend fails with the `no content` error when the
response content is missing or trims to nothing — in particular when it
consists only of whitespace; on success the final text is the content
with leading and trailing whitespace removed, never starting or ending
with whitespace, and it is also the single chunk delivered to
`onChunk`. -/
theorem openAiChat_content_extraction (c : JStr) :
    openAiChatResult (HttpOutcome.success none) =
      Except.error (str "Model returned no content.") ∧
    ((∀ x ∈ c, jsIsSpace x = true) →
      openAiChatResult (HttpOutcome.success (some c)) =
        Except.error (str "Model returned no content.")) ∧
    (∀ t chunks, openAiChatResult (HttpOutcome.success (some c)) = Except.ok (t, chunks) →
      t = jsTrim c ∧ chunks = [t] ∧
      (∀ h, t.head? = some h → jsIsSpace h = false) ∧
      (∀ h, t.getLast? = some h → jsIsSpace h = false)) := by
  refine ⟨rfl, ?_, ?_⟩
  · intro hs
    have ht := jsTrim_all_space c hs
    simp [openAiChatResult, ht]
  · intro t chunks hok
    simp only [openAiChatResult] at hok
    split at hok
    · exact absurd hok (by simp)
    · simp only [Except.ok.injEq, Prod.mk.injEq] at hok
      obtain ⟨ht, hc⟩ := hok
      subst ht
      subst hc
      exact ⟨rfl, rfl, fun h hh => jsTrim_head_not_space c h hh,
        fun h hh => jsTrim_getLast_not_space c h hh⟩

/-- Witness for C10: whitespace-only content is rejected with the
`no content` error. -/
theorem openAiChat_content_extraction_witness :
    openAiChatResult (HttpOutcome.success (some (str "  \n "))) =
      Except.error (str "Model returned no content.") :=
  (openAiChat_content_extraction (str "  \n ")).2.1 (by decide)

end GptStudio
